import Mathlib

/-!
Verification of the credential session manager and authorization gate of
`s3bucket_ext_rename.py` (yoniyamin/s3_ext_renamer), as a shallow embedding.

Modelling conventions:
* A Python `str` is a list of Unicode code points (`PyStr`).  The empty list
  models the empty string, which is falsy in Python.
* Wall-clock instants (`datetime.now()`) are natural numbers of seconds on a
  monotone clock, so the elapsed `timedelta` between `last_accessed` and a
  later `now` is `now - last_accessed` whole seconds.  Python's
  `timedelta.seconds` attribute is the seconds component after normalising the
  delta to days, i.e. the total seconds modulo 86400 for a non-negative delta.
* The session store `self.sessions` (a Python dict) is a function from handles
  to `Option SessionData`; `dict` deletion and insertion become pointwise
  updates.
* `secrets.token_urlsafe(32)` is nondeterministic, so `create_session` takes
  the generated handle as an explicit argument.
* Flask handlers are functions from the store, the current time and the parsed
  request body to a response paired with the resulting store.  The storage
  provider (boto3) is an oracle argument `Credentials → HttpResponse`; request
  body fields that are only ever forwarded to the provider are omitted from
  the body structures.
-/

namespace S3Renamer

/-- A Python string, as its list of Unicode code points. -/
abbrev PyStr := List Nat

/-- The credential bundle stored by `auth_login`:
`{access_key, secret_key, session_token, region}`. -/
structure Credentials where
  access_key : PyStr
  secret_key : PyStr
  session_token : Option PyStr
  region : PyStr
deriving Repr, DecidableEq

/-- One entry of `SecureSession.sessions`: the dict
`{credentials, created_at, last_accessed}` built by `create_session`. -/
structure SessionData where
  credentials : Credentials
  created_at : Nat
  last_accessed : Nat
deriving Repr, DecidableEq

/-- The session store `self.sessions`: a mapping from handle to session data. -/
abbrev Store := PyStr → Option SessionData

/-- The store of a freshly constructed `SecureSession` (`self.sessions = {}`). -/
def emptyStore : Store := fun _ => none

/-- `self.session_timeout = 3600  # 1 hour timeout`. -/
def session_timeout : Nat := 3600

/-- Python's `(now - last).seconds` on a non-negative whole-second delta:
the seconds component after normalising to days, i.e. mod 86400.  This is the
exact expression the source uses in its expiry checks (lines 116 and 135),
`.seconds`, not `.total_seconds()`. -/
def timedeltaSeconds (now last : Nat) : Nat := (now - last) % 86400

/-- `SecureSession.create_session` (lines 96-106): store
`{credentials, created_at: now, last_accessed: now}` under the freshly
generated handle and return the handle.  The assignment
`self.sessions[session_id] = session_data` is unconditional. -/
def create_session (st : Store) (now : Nat) (generated : PyStr)
    (credentials : Credentials) : PyStr × Store :=
  (generated, fun h => if h = generated then
    some { credentials := credentials, created_at := now, last_accessed := now }
    else st h)

/-- `SecureSession.invalidate_session` (lines 124-128): delete the entry if
present, otherwise do nothing. -/
def invalidate_session (st : Store) (session_id : PyStr) : Store :=
  fun h => if h = session_id then none else st h

/-- `SecureSession.get_credentials` (lines 108-122): return `None` when the
handle is falsy or unknown; if `(now - last_accessed).seconds >
session_timeout` invalidate the session and return `None`; otherwise touch
`last_accessed` and return the credentials.  The result is the returned value
paired with the store after the call's side effects. -/
def get_credentials (st : Store) (now : Nat) (session_id : PyStr) :
    Option Credentials × Store :=
  if session_id = [] then (none, st)
  else
    match st session_id with
    | none => (none, st)
    | some d =>
      if timedeltaSeconds now d.last_accessed > session_timeout then
        (none, invalidate_session st session_id)
      else
        (some d.credentials,
         fun h => if h = session_id then some { d with last_accessed := now }
                  else st h)

/-- `SecureSession.cleanup_expired_sessions` (lines 130-140): collect every
handle whose `(now - last_accessed).seconds > session_timeout` and invalidate
each collected handle. -/
def cleanup_expired_sessions (st : Store) (now : Nat) : Store :=
  fun h =>
    match st h with
    | none => none
    | some d =>
      if timedeltaSeconds now d.last_accessed > session_timeout then none
      else some d

/-- `get_session_credentials` (lines 1522-1532): read `session_id` from the
request body (`None` when the key is absent), return `None` when it is falsy,
otherwise resolve it through `session_manager.get_credentials`. -/
def get_session_credentials (st : Store) (now : Nat)
    (session_id : Option PyStr) : Option Credentials × Store :=
  match session_id with
  | none => (none, st)
  | some s => if s = [] then (none, st) else get_credentials st now s

/-- A JSON response as the client observes it: the HTTP status code (Flask's
`jsonify(...)` alone is 200; `jsonify(...), 401` is 401), the `success` field
and the `message` field. -/
structure HttpResponse where
  status : Nat
  success : Bool
  message : String
deriving Repr, DecidableEq

/-- The response `jsonify({"success": False, "message": "Invalid or expired
session"}), 401` shared by every storage endpoint's authorization gate. -/
def invalidSessionResponse : HttpResponse :=
  { status := 401, success := false, message := "Invalid or expired session" }

/-- A parsed JSON request body, reduced to the one field the authorization
gate reads; the remaining fields (bucket, keys, ...) only feed the provider
call and the post-gate parameter checks. -/
structure Body where
  session_id : Option PyStr
deriving Repr, DecidableEq

/-- Gate-first storage endpoint shape shared verbatim by ten handlers:
resolve the session via `get_session_credentials`; on failure answer 401
`success:false`; on success hand the credentials to the provider-backed rest
of the handler. -/
def gatedHandler (st : Store) (now : Nat) (body : Body)
    (rest : Credentials → HttpResponse) : HttpResponse × Store :=
  match get_session_credentials st now body.session_id with
  | (none, st') => (invalidSessionResponse, st')
  | (some credentials, st') => (rest credentials, st')

/-- `list_buckets` (lines 927-974): gate, then `boto3 ... list_buckets`. -/
def list_buckets (st : Store) (now : Nat) (body : Body)
    (rest : Credentials → HttpResponse) : HttpResponse × Store :=
  gatedHandler st now body rest

/-- `browse_folders` (lines 194-271): gate, then `list_objects_v2`. -/
def browse_folders (st : Store) (now : Nat) (body : Body)
    (rest : Credentials → HttpResponse) : HttpResponse × Store :=
  gatedHandler st now body rest

/-- `generate_presigned_url` (lines 390-703): gate, then presign. -/
def generate_presigned_url (st : Store) (now : Nat) (body : Body)
    (rest : Credentials → HttpResponse) : HttpResponse × Store :=
  gatedHandler st now body rest

/-- `s3_delete_object` (lines 975-1022): gate, then `delete_object`. -/
def s3_delete_object (st : Store) (now : Nat) (body : Body)
    (rest : Credentials → HttpResponse) : HttpResponse × Store :=
  gatedHandler st now body rest

/-- `s3_delete_folder` (lines 1023-1106): gate, then paginated delete. -/
def s3_delete_folder (st : Store) (now : Nat) (body : Body)
    (rest : Credentials → HttpResponse) : HttpResponse × Store :=
  gatedHandler st now body rest

/-- `s3_create_folder` (lines 1107-1163): gate, then `put_object`. -/
def s3_create_folder (st : Store) (now : Nat) (body : Body)
    (rest : Credentials → HttpResponse) : HttpResponse × Store :=
  gatedHandler st now body rest

/-- `s3_download_zip` (lines 1164-1258): gate, then zip streaming. -/
def s3_download_zip (st : Store) (now : Nat) (body : Body)
    (rest : Credentials → HttpResponse) : HttpResponse × Store :=
  gatedHandler st now body rest

/-- `s3_check_file` (lines 1259-1319): gate, then `head_object`. -/
def s3_check_file (st : Store) (now : Nat) (body : Body)
    (rest : Credentials → HttpResponse) : HttpResponse × Store :=
  gatedHandler st now body rest

/-- `s3_search_file` (lines 1320-1381): gate, then listing search. -/
def s3_search_file (st : Store) (now : Nat) (body : Body)
    (rest : Credentials → HttpResponse) : HttpResponse × Store :=
  gatedHandler st now body rest

/-- `wizard_extension_renamer` (lines 1595-1699), the rename preview, on its
`application/json` content-type branch: gate, then `list_matching_files`.
(The legacy form-data branch takes raw credentials and bypasses sessions.) -/
def wizard_extension_renamer (st : Store) (now : Nat) (body : Body)
    (rest : Credentials → HttpResponse) : HttpResponse × Store :=
  gatedHandler st now body rest

/-- The body of `/wizard/extension-renamer/execute`: the `config` object
(whose `session_id` the gate reads) and the `selected_files` list
(`data.get("selected_files", [])`). -/
structure ExecBody where
  config : Body
  selected_files : List PyStr
deriving Repr, DecidableEq

/-- `wizard_extension_renamer_execute` (lines 1700-1800): `if not
selected_files` answer 200 `success:false` BEFORE the session gate; otherwise
gate on `config`'s `session_id`, then run the renames. -/
def wizard_extension_renamer_execute (st : Store) (now : Nat) (body : ExecBody)
    (rest : Credentials → HttpResponse) : HttpResponse × Store :=
  if body.selected_files = [] then
    ({ status := 200, success := false,
       message := "No files selected for processing." }, st)
  else
    match get_session_credentials st now body.config.session_id with
    | (none, st') => (invalidSessionResponse, st')
    | (some credentials, st') => (rest credentials, st')

/-- `auth_validate` (lines 1502-1520): read `session_id` from body or header;
falsy gives 401 "No session provided"; an unresolvable handle gives 401
"Invalid or expired session"; otherwise 200 "Session valid". -/
def auth_validate (st : Store) (now : Nat) (session_id : Option PyStr) :
    HttpResponse × Store :=
  match session_id with
  | none => ({ status := 401, success := false,
               message := "No session provided" }, st)
  | some s =>
    if s = [] then
      ({ status := 401, success := false,
         message := "No session provided" }, st)
    else
      match get_credentials st now s with
      | (none, st') => (invalidSessionResponse, st')
      | (some _, st') =>
        ({ status := 200, success := true, message := "Session valid" }, st')

/-- The standard base64 alphabet (RFC 4648), index to ASCII code, as used by
Python's `base64.b64encode`. -/
def b64char (i : Nat) : Nat :=
  if i < 26 then 65 + i
  else if i < 52 then 97 + (i - 26)
  else if i < 62 then 48 + (i - 52)
  else if i = 62 then 43
  else 47

/-- Inverse alphabet lookup: ASCII code to six-bit index, `none` off the
alphabet (`base64.b64decode` raises there). -/
def b64index (c : Nat) : Option Nat :=
  if 65 ≤ c ∧ c ≤ 90 then some (c - 65)
  else if 97 ≤ c ∧ c ≤ 122 then some (26 + (c - 97))
  else if 48 ≤ c ∧ c ≤ 57 then some (52 + (c - 48))
  else if c = 43 then some 62
  else if c = 47 then some 63
  else none

/-- Python's `base64.b64encode` on a byte sequence: three bytes to four
alphabet characters, with `=` (code 61) padding for a final group of one or
two bytes. -/
def b64encode : List Nat → List Nat
  | [] => []
  | [a] => [b64char (a / 4), b64char (a % 4 * 16), 61, 61]
  | [a, b] => [b64char (a / 4), b64char (a % 4 * 16 + b / 16),
               b64char (b % 16 * 4), 61]
  | a :: b :: c :: rest =>
      b64char (a / 4) :: b64char (a % 4 * 16 + b / 16) ::
      b64char (b % 16 * 4 + c / 64) :: b64char (c % 64) :: b64encode rest

/-- Python's `base64.b64decode`: four characters to three bytes, a trailing
`xx==` group to one byte and a trailing `xxx=` group to two; `none` on a
length not divisible by four or a character off the alphabet. -/
def b64decode : List Nat → Option (List Nat)
  | [] => some []
  | c1 :: c2 :: c3 :: c4 :: rest =>
    (match b64index c1, b64index c2 with
     | some i1, some i2 =>
       if c3 = 61 ∧ c4 = 61 ∧ rest = [] then
         some [i1 * 4 + i2 / 16]
       else
         match b64index c3 with
         | some i3 =>
           if c4 = 61 ∧ rest = [] then
             some [i1 * 4 + i2 / 16, i2 % 16 * 16 + i3 / 4]
           else
             match b64index c4 with
             | some i4 =>
               (match b64decode rest with
                | some bs => some ((i1 * 4 + i2 / 16) :: (i2 % 16 * 16 + i3 / 4)
                                   :: (i3 % 4 * 64 + i4) :: bs)
                | none => none)
             | none => none
         | none => none
     | _, _ => none)
  | _ => none

/-- A Unicode scalar value: what a well-formed Python `str` code point must be
for `str.encode('utf-8')` to succeed (lone surrogates raise). -/
def isScalar (c : Nat) : Prop := c < 1114112 ∧ ¬(55296 ≤ c ∧ c < 57344)

instance (c : Nat) : Decidable (isScalar c) := by
  unfold isScalar
  infer_instance

/-- UTF-8 encoding of one Unicode scalar value (one to four bytes). -/
def utf8EncodeChar (c : Nat) : List Nat :=
  if c < 128 then [c]
  else if c < 2048 then [192 + c / 64, 128 + c % 64]
  else if c < 65536 then [224 + c / 4096, 128 + c / 64 % 64, 128 + c % 64]
  else [240 + c / 262144, 128 + c / 4096 % 64, 128 + c / 64 % 64, 128 + c % 64]

/-- Python's `str.encode('utf-8')`: code points to bytes. -/
def utf8Encode : PyStr → List Nat
  | [] => []
  | c :: cs => utf8EncodeChar c ++ utf8Encode cs

/-- Python's `bytes.decode('utf-8')`: bytes to code points, `none` on
malformed input (bad lead byte, missing or malformed continuation bytes,
overlong form, surrogate, or value past U+10FFFF). -/
def utf8Decode : List Nat → Option PyStr
  | [] => some []
  | b :: bs =>
    if b < 128 then (utf8Decode bs).map (b :: ·)
    else if b < 194 then none
    else if b < 224 then
      match bs with
      | [] => none
      | b1 :: bs' =>
        if 128 ≤ b1 ∧ b1 < 192 then
          (utf8Decode bs').map (((b - 192) * 64 + (b1 - 128)) :: ·)
        else none
    else if b < 240 then
      match bs with
      | [] => none
      | b1 :: bs1 =>
        match bs1 with
        | [] => none
        | b2 :: bs' =>
          if 128 ≤ b1 ∧ b1 < 192 ∧ 128 ≤ b2 ∧ b2 < 192 then
            if 2048 ≤ (b - 224) * 4096 + (b1 - 128) * 64 + (b2 - 128) ∧
               ¬(55296 ≤ (b - 224) * 4096 + (b1 - 128) * 64 + (b2 - 128) ∧
                 (b - 224) * 4096 + (b1 - 128) * 64 + (b2 - 128) < 57344) then
              (utf8Decode bs').map
                (((b - 224) * 4096 + (b1 - 128) * 64 + (b2 - 128)) :: ·)
            else none
          else none
    else if b < 245 then
      match bs with
      | [] => none
      | b1 :: bs1 =>
        match bs1 with
        | [] => none
        | b2 :: bs2 =>
          match bs2 with
          | [] => none
          | b3 :: bs' =>
            if 128 ≤ b1 ∧ b1 < 192 ∧ 128 ≤ b2 ∧ b2 < 192 ∧
               128 ≤ b3 ∧ b3 < 192 then
              if 65536 ≤ (b - 240) * 262144 + (b1 - 128) * 4096 +
                   (b2 - 128) * 64 + (b3 - 128) ∧
                 (b - 240) * 262144 + (b1 - 128) * 4096 +
                   (b2 - 128) * 64 + (b3 - 128) < 1114112 then
                (utf8Decode bs').map
                  (((b - 240) * 262144 + (b1 - 128) * 4096 +
                    (b2 - 128) * 64 + (b3 - 128)) :: ·)
              else none
            else none
    else none

/-- `deobfuscate_string` (lines 1396-1413, nested in `auth_login`): base64
decode the input and read it as UTF-8; if a colon (code 58) occurs, keep only
what follows the first colon (`split(':', 1)`); base64 decode that and read
it as UTF-8; reverse the result (`[::-1]`).  `none` models the raised
`ValueError` on any failing layer. -/
def deobfuscate_string (s : PyStr) : Option PyStr :=
  match b64decode s with
  | none => none
  | some bytes1 =>
    match utf8Decode bytes1 with
    | none => none
    | some decoded =>
      let encoded := if 58 ∈ decoded then (decoded.dropWhile (· ≠ 58)).tail
                     else decoded
      match b64decode encoded with
      | none => none
      | some bytes2 =>
        match utf8Decode bytes2 with
        | none => none
        | some reversed => some reversed.reverse

/-- Modelled from the spec: the client-side three-layer obfuscation applied by
the front-end JavaScript, which is not under `src/` — "string-reverse →
base64 → timestamp-prefixed base64", i.e.
`base64(timestamp + ":" + base64(reverse(s)))`. -/
def obfuscate (timestamp s : PyStr) : PyStr :=
  b64encode (utf8Encode (timestamp ++ 58 :: b64encode (utf8Encode s.reverse)))

/-- The parsed `/auth/login` body:
`{access_key, secret_key, session_token?, region?, encrypted?}`. -/
structure LoginBody where
  encrypted : Bool
  access_key : Option PyStr
  secret_key : Option PyStr
  session_token : Option PyStr
  region : Option PyStr
deriving Repr, DecidableEq

/-- The code points of an ASCII string literal. -/
def pyStrOf (s : String) : PyStr := s.data.map Char.toNat

/-- `auth_login` (lines 1383-1483): when `encrypted`, pass `access_key`,
`secret_key` and a truthy `session_token` through `deobfuscate_string`
(failure gives 400 "Invalid encrypted credentials"); a falsy access or secret
key gives 400; then verify the bundle against the provider's
`sts.get_caller_identity` (the oracle `stsAccepts`): rejection gives 401
"Invalid AWS credentials", acceptance creates a session under the generated
handle and answers 200 "Authentication successful". -/
def auth_login (st : Store) (now : Nat) (generated : PyStr) (body : LoginBody)
    (stsAccepts : Credentials → Bool) : HttpResponse × Store :=
  let region := body.region.getD (pyStrOf "us-east-1")
  let keys : Option (PyStr × PyStr × Option PyStr) :=
    if body.encrypted then
      match deobfuscate_string (body.access_key.getD []),
            deobfuscate_string (body.secret_key.getD []) with
      | some ak, some sk =>
        match body.session_token with
        | none => some (ak, sk, none)
        | some t =>
          if t = [] then some (ak, sk, none)
          else
            match deobfuscate_string t with
            | some tok => some (ak, sk, some tok)
            | none => none
      | _, _ => none
    else
      some (body.access_key.getD [], body.secret_key.getD [],
            body.session_token)
  match keys with
  | none => ({ status := 400, success := false,
               message := "Invalid encrypted credentials" }, st)
  | some (ak, sk, tok) =>
    if ak = [] ∨ sk = [] then
      ({ status := 400, success := false,
         message := "Access key and secret key are required" }, st)
    else
      let credentials : Credentials :=
        { access_key := ak, secret_key := sk, session_token := tok,
          region := region }
      if stsAccepts credentials then
        ({ status := 200, success := true,
           message := "Authentication successful" },
         (create_session st now generated credentials).2)
      else
        ({ status := 401, success := false,
           message := "Invalid AWS credentials" }, st)

/-! ## Shared helper lemmas -/

/-- Concrete bundle used by closed evaluations. -/
def credsA : Credentials :=
  { access_key := [97], secret_key := [98], session_token := none,
    region := [114] }

/-- A second concrete bundle, distinct from `credsA`. -/
def credsB : Credentials :=
  { access_key := [99], secret_key := [100], session_token := none,
    region := [114] }

/-- `get_credentials` only ever writes the entry of the handle it was called
with: every other handle's entry is unchanged in all four branches. -/
lemma get_credentials_frame (st : Store) (now : Nat) (session_id h' : PyStr)
    (hne : h' ≠ session_id) :
    (get_credentials st now session_id).2 h' = st h' := by
  unfold get_credentials
  by_cases h0 : session_id = []
  · simp [h0]
  · simp only [h0, if_false]
    cases hst : st session_id with
    | none => rfl
    | some d =>
      by_cases hexp : timedeltaSeconds now d.last_accessed > session_timeout
      · simp [hexp, invalidate_session, hne]
      · simp [hexp, hne]

/-- A live lookup returns the stored bundle. -/
lemma get_credentials_live (st : Store) (now : Nat) (session_id : PyStr)
    (d : SessionData) (h0 : session_id ≠ []) (hd : st session_id = some d)
    (hfresh : ¬ timedeltaSeconds now d.last_accessed > session_timeout) :
    (get_credentials st now session_id).1 = some d.credentials := by
  unfold get_credentials
  simp [h0, hd, hfresh]

/-! ## Claim C1 -/

/-- C1: the claim says `get_credentials` returns `none` whenever the elapsed
idle time is at least 3600 seconds, "including durations exceeding one day".
Evaluating the code at the failing input: a session created (and last
accessed) at t = 0 and queried at t = 86410 — idle for 24 hours and 10
seconds — still yields the stored credentials, because the source measures
idleness with `timedelta.seconds` (the day-wrapped seconds component,
86410 mod 86400 = 10) instead of `total_seconds()`, so the check
`10 > 3600` fails and the session is treated as live. -/
theorem get_credentials_live_after_one_day_idle :
    (get_credentials (create_session emptyStore 0 [104] credsA).2
      86410 [104]).1 = some credsA := by rfl

/-! ## Claim C2 -/

/-- C2: creating a session and immediately resolving the returned handle
gives back exactly the stored credential bundle. -/
theorem create_then_get_roundtrip (st : Store) (now : Nat) (generated : PyStr)
    (credentials : Credentials) (h : generated ≠ []) :
    (get_credentials (create_session st now generated credentials).2
      now generated).1 = some credentials := by
  have hd : (create_session st now generated credentials).2 generated
      = some { credentials := credentials, created_at := now,
               last_accessed := now } := by
    simp [create_session]
  exact get_credentials_live _ _ _ _ h hd
    (by simp [timedeltaSeconds, session_timeout])

/-- Witness for C2 at a concrete handle and bundle. -/
theorem create_then_get_roundtrip_witness :
    ([104] : PyStr) ≠ [] ∧
    (get_credentials (create_session emptyStore 0 [104] credsA).2
      0 [104]).1 = some credsA :=
  ⟨by decide, create_then_get_roundtrip emptyStore 0 [104] credsA (by decide)⟩

/-! ## Claim C3 -/

/-- C3: the claim says any handle idle for at least the timeout gets `none`
and its session is deleted.  Evaluating the code at the failing input: a
session created at t = 0 and queried at t = 87000 (idle 87000 s ≥ 3600 s)
returns the stored credentials, and the session is retained — indeed
refreshed (`last_accessed` becomes 87000) — because `timedelta.seconds`
wraps: 87000 mod 86400 = 600 ≤ 3600. -/
theorem expired_handle_survives_and_refreshes :
    (get_credentials (create_session emptyStore 0 [104] credsA).2
      87000 [104]).1 = some credsA ∧
    (get_credentials (create_session emptyStore 0 [104] credsA).2
      87000 [104]).2 [104] =
      some { credentials := credsA, created_at := 0, last_accessed := 87000 } := by
  constructor <;> rfl

/-! ## Claim C5 -/

/-- C5: `invalidate_session` is idempotent, removes exactly the given handle
(and so does nothing when the handle is absent), touches no other handle,
never errors (it is a total function), and a `get_credentials` call on the
invalidated handle returns `none` regardless of the session's prior
validity. -/
theorem invalidate_session_spec (st : Store) (session_id h' : PyStr)
    (now : Nat) (hne : h' ≠ session_id) :
    invalidate_session (invalidate_session st session_id) session_id
        = invalidate_session st session_id
    ∧ invalidate_session st session_id session_id = none
    ∧ invalidate_session st session_id h' = st h'
    ∧ (get_credentials (invalidate_session st session_id) now session_id).1
        = none := by
  refine ⟨funext fun h => ?_, ?_, ?_, ?_⟩
  · unfold invalidate_session
    by_cases hh : h = session_id <;> simp [hh]
  · simp [invalidate_session]
  · simp [invalidate_session, hne]
  · unfold get_credentials
    by_cases h0 : session_id = [] <;> simp [h0, invalidate_session]

/-- Witness for C5 at concrete handles. -/
theorem invalidate_session_spec_witness :
    ([105] : PyStr) ≠ [104] ∧
    (invalidate_session (invalidate_session emptyStore [104]) [104]
        = invalidate_session emptyStore [104]
    ∧ invalidate_session emptyStore [104] [104] = none
    ∧ invalidate_session emptyStore [104] [105] = emptyStore [105]
    ∧ (get_credentials (invalidate_session emptyStore [104]) 0 [104]).1
        = none) :=
  ⟨by decide, invalidate_session_spec emptyStore [104] [105] 0 (by decide)⟩

/-! ## Claim C6 -/

/-- C6 counterexample: the claim says a colliding generated handle is
regenerated and an existing session is never silently replaced.  In the code
`self.sessions[session_id] = session_data` is unconditional: creating a
second session under the handle `[104]`, already live with `credsA`,
silently replaces it with `credsB`. -/
theorem create_session_overwrites_colliding_handle :
    (create_session (create_session emptyStore 0 [104] credsA).2
        5 [104] credsB).2 [104]
      = some { credentials := credsB, created_at := 5, last_accessed := 5 }
    ∧ credsA ≠ credsB := by
  constructor
  · rfl
  · decide

/-- C6 amended: `create_session` returns the generated handle and stores the
new session under it unconditionally — a handle that already maps to a live
session is silently overwritten, with no regeneration; entries under every
other handle are untouched.  Uniqueness rests only on the 256-bit random
handle space. -/
theorem create_session_unconditional_store (st : Store) (now : Nat)
    (generated h' : PyStr) (credentials : Credentials)
    (hne : h' ≠ generated) :
    (create_session st now generated credentials).1 = generated
    ∧ (create_session st now generated credentials).2 generated
        = some { credentials := credentials, created_at := now,
                 last_accessed := now }
    ∧ (create_session st now generated credentials).2 h' = st h' := by
  refine ⟨rfl, ?_, ?_⟩ <;> simp [create_session, hne]

/-- Witness for the amended C6 at concrete handles. -/
theorem create_session_unconditional_store_witness :
    ([105] : PyStr) ≠ [104] ∧
    ((create_session emptyStore 7 [104] credsA).1 = [104]
    ∧ (create_session emptyStore 7 [104] credsA).2 [104]
        = some { credentials := credsA, created_at := 7, last_accessed := 7 }
    ∧ (create_session emptyStore 7 [104] credsA).2 [105] = emptyStore [105]) :=
  ⟨by decide,
   create_session_unconditional_store emptyStore 7 [104] [105] credsA
     (by decide)⟩

/-! ## Claim C7 -/

/-- C7: the sweep and the read path share one expiry rule — for any stored
session, `cleanup_expired_sessions` removes it at time `now` exactly when a
`get_credentials` call on its handle at that same time would return `none`,
and exactly when that call would delete the entry. -/
theorem cleanup_matches_get_expiry (st : Store) (now : Nat)
    (session_id : PyStr) (d : SessionData) (h0 : session_id ≠ [])
    (hd : st session_id = some d) :
    (cleanup_expired_sessions st now session_id = none
      ↔ (get_credentials st now session_id).1 = none)
    ∧ (cleanup_expired_sessions st now session_id = none
      ↔ (get_credentials st now session_id).2 session_id = none) := by
  unfold cleanup_expired_sessions get_credentials
  by_cases hexp : timedeltaSeconds now d.last_accessed > session_timeout <;>
    simp [h0, hd, hexp, invalidate_session]

/-- Witness for C7 on a concrete expired session. -/
theorem cleanup_matches_get_expiry_witness :
    ([104] : PyStr) ≠ [] ∧
    (create_session emptyStore 0 [104] credsA).2 [104]
      = some { credentials := credsA, created_at := 0, last_accessed := 0 } ∧
    ((cleanup_expired_sessions (create_session emptyStore 0 [104] credsA).2
        5000 [104] = none
      ↔ (get_credentials (create_session emptyStore 0 [104] credsA).2
          5000 [104]).1 = none)
    ∧ (cleanup_expired_sessions (create_session emptyStore 0 [104] credsA).2
        5000 [104] = none
      ↔ (get_credentials (create_session emptyStore 0 [104] credsA).2
          5000 [104]).2 [104] = none)) :=
  ⟨by decide, by rfl,
   cleanup_matches_get_expiry (create_session emptyStore 0 [104] credsA).2
     5000 [104] { credentials := credsA, created_at := 0, last_accessed := 0 }
     (by decide) (by rfl)⟩

/-! ## Claim C10 -/

/-- C10: operations on one handle leave every other session untouched — for
distinct handles, both `get_credentials h1` and `invalidate_session h1`
leave `h2`'s entry byte-for-byte unchanged, and a subsequent
`get_credentials h2` (with `h2` still live) returns exactly `h2`'s stored
bundle: no cross-session credential bleed. -/
theorem session_ops_frame (st : Store) (now : Nat) (h1 h2 : PyStr)
    (d2 : SessionData) (hne : h2 ≠ h1) (h2ne : h2 ≠ [])
    (h2live : st h2 = some d2)
    (h2fresh : ¬ timedeltaSeconds now d2.last_accessed > session_timeout) :
    (get_credentials st now h1).2 h2 = st h2
    ∧ invalidate_session st h1 h2 = st h2
    ∧ (get_credentials ((get_credentials st now h1).2) now h2).1
        = some d2.credentials
    ∧ (get_credentials (invalidate_session st h1) now h2).1
        = some d2.credentials := by
  have hframe := get_credentials_frame st now h1 h2 hne
  refine ⟨hframe, by simp [invalidate_session, hne], ?_, ?_⟩
  · exact get_credentials_live _ _ _ _ h2ne (hframe.trans h2live) h2fresh
  · exact get_credentials_live _ _ _ _ h2ne
      (by simp [invalidate_session, hne, h2live]) h2fresh

/-- Witness for C10 on a concrete two-session store. -/
theorem session_ops_frame_witness :
    ([104] : PyStr) ≠ [105] ∧ ([104] : PyStr) ≠ [] ∧
    (create_session (create_session emptyStore 0 [104] credsA).2
        0 [105] credsB).2 [104]
      = some { credentials := credsA, created_at := 0, last_accessed := 0 } ∧
    ¬ timedeltaSeconds 100 0 > session_timeout ∧
    ((get_credentials (create_session (create_session emptyStore 0 [104]
          credsA).2 0 [105] credsB).2 100 [105]).2 [104]
      = (create_session (create_session emptyStore 0 [104] credsA).2
          0 [105] credsB).2 [104]
    ∧ invalidate_session (create_session (create_session emptyStore 0 [104]
          credsA).2 0 [105] credsB).2 [105] [104]
      = (create_session (create_session emptyStore 0 [104] credsA).2
          0 [105] credsB).2 [104]
    ∧ (get_credentials ((get_credentials (create_session (create_session
          emptyStore 0 [104] credsA).2 0 [105] credsB).2 100 [105]).2)
          100 [104]).1 = some credsA
    ∧ (get_credentials (invalidate_session (create_session (create_session
          emptyStore 0 [104] credsA).2 0 [105] credsB).2 [105]) 100 [104]).1
      = some credsA) :=
  ⟨by decide, by decide, by rfl, by decide,
   session_ops_frame (create_session (create_session emptyStore 0 [104]
       credsA).2 0 [105] credsB).2 100 [105] [104]
     { credentials := credsA, created_at := 0, last_accessed := 0 }
     (by decide) (by decide) (by rfl) (by decide)⟩

/-! ## Claim C4 -/

/-- A request body's session reference is missing, unknown, or expired. -/
def sessionInvalid (st : Store) (now : Nat) (session_id : Option PyStr) :
    Prop :=
  session_id = none ∨ session_id = some [] ∨
  (∃ s, session_id = some s ∧ st s = none) ∨
  (∃ s d, session_id = some s ∧ st s = some d ∧
    timedeltaSeconds now d.last_accessed > session_timeout)

/-- An invalid session reference resolves to no credentials. -/
lemma get_session_credentials_invalid (st : Store) (now : Nat)
    (session_id : Option PyStr) (h : sessionInvalid st now session_id) :
    (get_session_credentials st now session_id).1 = none := by
  rcases h with rfl | rfl | ⟨s, rfl, hs⟩ | ⟨s, d, rfl, hd, hexp⟩
  · rfl
  · simp [get_session_credentials]
  · by_cases h0 : s = [] <;>
      simp [get_session_credentials, get_credentials, h0, hs]
  · by_cases h0 : s = [] <;>
      simp [get_session_credentials, get_credentials, h0, hd, hexp]

/-- The shared gate rejects an invalid session with the uniform 401 response,
independently of the provider-backed rest of the handler. -/
lemma gatedHandler_invalid (st : Store) (now : Nat) (body : Body)
    (rest : Credentials → HttpResponse)
    (h : sessionInvalid st now body.session_id) :
    gatedHandler st now body rest =
      (invalidSessionResponse,
       (get_session_credentials st now body.session_id).2) := by
  have h1 := get_session_credentials_invalid st now body.session_id h
  unfold gatedHandler
  cases hg : get_session_credentials st now body.session_id with
  | mk r st' =>
    cases r with
    | none => rfl
    | some c => rw [hg] at h1; simp at h1

/-- C4 counterexample: the claim says every storage endpoint answers 401 to a
body with a missing session.  `/wizard/extension-renamer/execute`, given a
body with an empty `selected_files` list and no `session_id` at all, answers
HTTP 200 (with `success:false`) before ever consulting the session store. -/
theorem execute_no_files_bypasses_auth_gate :
    (wizard_extension_renamer_execute emptyStore 0
        { config := { session_id := none }, selected_files := [] }
        (fun _ => { status := 200, success := true, message := "" })).1.status
      = 200
    ∧ (wizard_extension_renamer_execute emptyStore 0
        { config := { session_id := none }, selected_files := [] }
        (fun _ => { status := 200, success := true, message := "" })).1.status
      ≠ 401 := by
  constructor
  · rfl
  · decide

/-- C4 amended: every storage operation endpoint, given a body whose
session reference is missing, unknown, or expired, answers HTTP 401 with
`success:false` and never consults the storage provider (the response and
resulting store are the same for any two provider oracles) — except
`/wizard/extension-renamer/execute` with an empty or absent `selected_files`
list, which answers 200 `success:false` before the session check; with a
nonempty `selected_files` it obeys the same 401 contract. -/
theorem storage_endpoints_reject_invalid_session (st : Store) (now : Nat)
    (body : Body) (eb : ExecBody) (rest rest' : Credentials → HttpResponse)
    (h : sessionInvalid st now body.session_id)
    (he : sessionInvalid st now eb.config.session_id)
    (hf : eb.selected_files ≠ []) :
    ((list_buckets st now body rest).1.status = 401
      ∧ (list_buckets st now body rest).1.success = false
      ∧ list_buckets st now body rest = list_buckets st now body rest')
    ∧ ((browse_folders st now body rest).1.status = 401
      ∧ (browse_folders st now body rest).1.success = false
      ∧ browse_folders st now body rest = browse_folders st now body rest')
    ∧ ((generate_presigned_url st now body rest).1.status = 401
      ∧ (generate_presigned_url st now body rest).1.success = false
      ∧ generate_presigned_url st now body rest
          = generate_presigned_url st now body rest')
    ∧ ((s3_delete_object st now body rest).1.status = 401
      ∧ (s3_delete_object st now body rest).1.success = false
      ∧ s3_delete_object st now body rest = s3_delete_object st now body rest')
    ∧ ((s3_delete_folder st now body rest).1.status = 401
      ∧ (s3_delete_folder st now body rest).1.success = false
      ∧ s3_delete_folder st now body rest = s3_delete_folder st now body rest')
    ∧ ((s3_create_folder st now body rest).1.status = 401
      ∧ (s3_create_folder st now body rest).1.success = false
      ∧ s3_create_folder st now body rest = s3_create_folder st now body rest')
    ∧ ((s3_download_zip st now body rest).1.status = 401
      ∧ (s3_download_zip st now body rest).1.success = false
      ∧ s3_download_zip st now body rest = s3_download_zip st now body rest')
    ∧ ((s3_check_file st now body rest).1.status = 401
      ∧ (s3_check_file st now body rest).1.success = false
      ∧ s3_check_file st now body rest = s3_check_file st now body rest')
    ∧ ((s3_search_file st now body rest).1.status = 401
      ∧ (s3_search_file st now body rest).1.success = false
      ∧ s3_search_file st now body rest = s3_search_file st now body rest')
    ∧ ((wizard_extension_renamer st now body rest).1.status = 401
      ∧ (wizard_extension_renamer st now body rest).1.success = false
      ∧ wizard_extension_renamer st now body rest
          = wizard_extension_renamer st now body rest')
    ∧ ((wizard_extension_renamer_execute st now eb rest).1.status = 401
      ∧ (wizard_extension_renamer_execute st now eb rest).1.success = false
      ∧ wizard_extension_renamer_execute st now eb rest
          = wizard_extension_renamer_execute st now eb rest') := by
  have key : ∀ r : Credentials → HttpResponse, gatedHandler st now body r =
      (invalidSessionResponse,
       (get_session_credentials st now body.session_id).2) :=
    fun r => gatedHandler_invalid st now body r h
  have keyE : ∀ r : Credentials → HttpResponse,
      wizard_extension_renamer_execute st now eb r =
      (invalidSessionResponse,
       (get_session_credentials st now eb.config.session_id).2) := by
    intro r
    have h1 := get_session_credentials_invalid st now eb.config.session_id he
    unfold wizard_extension_renamer_execute
    rw [if_neg hf]
    cases hg : get_session_credentials st now eb.config.session_id with
    | mk v st' =>
      cases v with
      | none => rfl
      | some c => rw [hg] at h1; simp at h1
  simp only [list_buckets, browse_folders, generate_presigned_url,
    s3_delete_object, s3_delete_folder, s3_create_folder, s3_download_zip,
    s3_check_file, s3_search_file, wizard_extension_renamer, key, keyE]
  simp [invalidSessionResponse]

/-- Witness for the amended C4: a body with no session reference at all and a
nonempty file selection. -/
theorem storage_endpoints_reject_invalid_session_witness :
    sessionInvalid emptyStore 0 (Body.mk none).session_id ∧
    sessionInvalid emptyStore 0
      (ExecBody.mk (Body.mk none) [[97]]).config.session_id ∧
    (ExecBody.mk (Body.mk none) [[97]]).selected_files ≠ [] ∧
    (list_buckets emptyStore 0 (Body.mk none)
        (fun _ => invalidSessionResponse)).1.status = 401 :=
  ⟨Or.inl rfl, Or.inl rfl, by decide,
   (storage_endpoints_reject_invalid_session emptyStore 0 (Body.mk none)
      (ExecBody.mk (Body.mk none) [[97]])
      (fun _ => invalidSessionResponse) (fun _ => invalidSessionResponse)
      (Or.inl rfl) (Or.inl rfl) (by decide)).1.1⟩

/-! ## Claim C8 -/

/-- An unencrypted login body with truthy keys, for concrete evaluations. -/
def loginBodyPlain : LoginBody :=
  { encrypted := false, access_key := some [97], secret_key := some [98],
    session_token := none, region := none }

/-- C8 counterexample: the claim says the 401 message is uniform, so a caller
cannot tell a missing handle from a login failure.  Both answers are 401,
but `/auth/validate` with no handle says "No session provided" while a
provider-rejected login says "Invalid AWS credentials" — distinguishable
messages. -/
theorem auth_failure_messages_distinguishable :
    (auth_validate emptyStore 0 none).1.status = 401
    ∧ (auth_login emptyStore 0 [104] loginBodyPlain (fun _ => false)).1.status
        = 401
    ∧ (auth_validate emptyStore 0 none).1.message
        ≠ (auth_login emptyStore 0 [104] loginBodyPlain
            (fun _ => false)).1.message := by
  refine ⟨rfl, rfl, ?_⟩
  decide

/-- C8 amended: every authorization failure — missing, unknown, or expired
handle, and provider-rejected login — answers HTTP 401 with `success:false`;
an unknown and an expired handle yield the identical response, so those two
are indistinguishable to the caller; but a missing handle ("No session
provided") and a rejected login ("Invalid AWS credentials") carry messages
distinct from the shared "Invalid or expired session", so those cases are
distinguishable. -/
theorem auth_failures_all_401 (st : Store) (now : Nat) (s1 s2 : PyStr)
    (d : SessionData) (body : LoginBody) (generated : PyStr)
    (sts : Credentials → Bool) (ak sk : PyStr)
    (h1ne : s1 ≠ []) (h1unk : st s1 = none)
    (h2ne : s2 ≠ []) (h2d : st s2 = some d)
    (h2exp : timedeltaSeconds now d.last_accessed > session_timeout)
    (henc : body.encrypted = false)
    (hak : body.access_key = some ak) (hakne : ak ≠ [])
    (hsk : body.secret_key = some sk) (hskne : sk ≠ [])
    (hrej : sts { access_key := ak, secret_key := sk,
                  session_token := body.session_token,
                  region := body.region.getD (pyStrOf "us-east-1") } = false) :
    (auth_validate st now none).1
      = { status := 401, success := false, message := "No session provided" }
    ∧ (auth_validate st now (some [])).1
      = { status := 401, success := false, message := "No session provided" }
    ∧ (auth_validate st now (some s1)).1 = invalidSessionResponse
    ∧ (auth_validate st now (some s2)).1 = invalidSessionResponse
    ∧ (auth_validate st now (some s1)).1 = (auth_validate st now (some s2)).1
    ∧ (auth_login st now generated body sts).1
      = { status := 401, success := false,
          message := "Invalid AWS credentials" } := by
  have hv1 : (auth_validate st now (some s1)).1 = invalidSessionResponse := by
    simp [auth_validate, h1ne, get_credentials, h1unk]
  have hv2 : (auth_validate st now (some s2)).1 = invalidSessionResponse := by
    simp [auth_validate, h2ne, get_credentials, h2d, h2exp]
  refine ⟨rfl, by simp [auth_validate], hv1, hv2, hv1.trans hv2.symm, ?_⟩
  simp [auth_login, henc, hak, hsk, hakne, hskne, hrej]

/-- Witness for the amended C8 on a store holding one expired session. -/
theorem auth_failures_all_401_witness :
    ([105] : PyStr) ≠ [] ∧
    (create_session emptyStore 0 [104] credsA).2 [105] = none ∧
    ([104] : PyStr) ≠ [] ∧
    (create_session emptyStore 0 [104] credsA).2 [104]
      = some { credentials := credsA, created_at := 0, last_accessed := 0 } ∧
    timedeltaSeconds 5000 0 > session_timeout ∧
    (auth_login (create_session emptyStore 0 [104] credsA).2 5000 [106]
        loginBodyPlain (fun _ => false)).1
      = { status := 401, success := false,
          message := "Invalid AWS credentials" } :=
  ⟨by decide, by rfl, by decide, by rfl, by decide,
   (auth_failures_all_401 (create_session emptyStore 0 [104] credsA).2 5000
      [105] [104] { credentials := credsA, created_at := 0, last_accessed := 0 }
      loginBodyPlain [106] (fun _ => false) [97] [98]
      (by decide) (by rfl) (by decide) (by rfl) (by decide)
      rfl rfl (by decide) rfl (by decide) rfl).2.2.2.2.2⟩

/-! ## Claim C9: base64 and UTF-8 round trips -/

/-- Alphabet characters are ASCII, never a colon and never the pad `=`. -/
lemma b64char_bounds (i : Nat) :
    b64char i < 128 ∧ b64char i ≠ 58 ∧ b64char i ≠ 61 := by
  unfold b64char
  split_ifs <;> omega

/-- Decoding inverts the alphabet on six-bit indices. -/
lemma b64index_b64char : ∀ i < 64, b64index (b64char i) = some i := by
  decide

/-- `b64decode` inverts `b64encode` on byte sequences. -/
lemma b64decode_b64encode (bs : List Nat) :
    (∀ b ∈ bs, b < 256) → b64decode (b64encode bs) = some bs := by
  induction bs using b64encode.induct with
  | case1 => intro _; rfl
  | case2 a =>
    intro h
    have ha : a < 256 := h a (by simp)
    have h1 := b64index_b64char (a / 4) (by omega)
    have h2 := b64index_b64char (a % 4 * 16) (by omega)
    simp [b64encode, b64decode, h1, h2]
    omega
  | case3 a b =>
    intro h
    have ha : a < 256 := h a (by simp)
    have hb : b < 256 := h b (by simp)
    have h1 := b64index_b64char (a / 4) (by omega)
    have h2 := b64index_b64char (a % 4 * 16 + b / 16) (by omega)
    have h3 := b64index_b64char (b % 16 * 4) (by omega)
    have hne3 := (b64char_bounds (b % 16 * 4)).2.2
    simp [b64encode, b64decode, h1, h2, h3, hne3]
    omega
  | case4 a b c rest ih =>
    intro h
    have ha : a < 256 := h a (by simp)
    have hb : b < 256 := h b (by simp)
    have hc : c < 256 := h c (by simp)
    have h1 := b64index_b64char (a / 4) (by omega)
    have h2 := b64index_b64char (a % 4 * 16 + b / 16) (by omega)
    have h3 := b64index_b64char (b % 16 * 4 + c / 64) (by omega)
    have h4 := b64index_b64char (c % 64) (by omega)
    have hne3 := (b64char_bounds (b % 16 * 4 + c / 64)).2.2
    have hne4 := (b64char_bounds (c % 64)).2.2
    have hrest := ih (fun x hx => h x (by simp [hx]))
    simp [b64encode, b64decode, h1, h2, h3, h4, hne3, hne4, hrest]
    omega

/-- Every byte of `b64encode` output is ASCII and is not a colon. -/
lemma b64encode_ascii (bs : List Nat) :
    ∀ x ∈ b64encode bs, x < 128 ∧ x ≠ 58 := by
  induction bs using b64encode.induct with
  | case1 => simp [b64encode]
  | case2 a =>
    simp only [b64encode, List.mem_cons, List.not_mem_nil, or_false]
    rintro x (rfl | rfl | rfl | rfl) <;>
      first
      | exact ⟨(b64char_bounds _).1, (b64char_bounds _).2.1⟩
      | exact ⟨by omega, by omega⟩
  | case3 a b =>
    simp only [b64encode, List.mem_cons, List.not_mem_nil, or_false]
    rintro x (rfl | rfl | rfl | rfl) <;>
      first
      | exact ⟨(b64char_bounds _).1, (b64char_bounds _).2.1⟩
      | exact ⟨by omega, by omega⟩
  | case4 a b c rest ih =>
    simp only [b64encode, List.mem_cons]
    rintro x (rfl | rfl | rfl | rfl | hx)
    · exact ⟨(b64char_bounds _).1, (b64char_bounds _).2.1⟩
    · exact ⟨(b64char_bounds _).1, (b64char_bounds _).2.1⟩
    · exact ⟨(b64char_bounds _).1, (b64char_bounds _).2.1⟩
    · exact ⟨(b64char_bounds _).1, (b64char_bounds _).2.1⟩
    · exact ih x hx

/-- The UTF-8 encoding of a scalar below U+110000 fits in bytes. -/
lemma utf8EncodeChar_lt256 (c : Nat) (hc : c < 1114112) :
    ∀ b ∈ utf8EncodeChar c, b < 256 := by
  intro b hb
  unfold utf8EncodeChar at hb
  split_ifs at hb <;> simp at hb <;> omega

/-- Every byte of a UTF-8 encoded string fits in a byte. -/
lemma utf8Encode_lt256 (s : PyStr) (h : ∀ c ∈ s, c < 1114112) :
    ∀ b ∈ utf8Encode s, b < 256 := by
  induction s with
  | nil => simp [utf8Encode]
  | cons c cs ih =>
    intro b hb
    rw [utf8Encode, List.mem_append] at hb
    rcases hb with hb | hb
    · exact utf8EncodeChar_lt256 c (h c (by simp)) b hb
    · exact ih (fun x hx => h x (by simp [hx])) b hb

set_option maxRecDepth 4000 in
/-- Decoding a UTF-8 encoded scalar prepends it to the decode of the rest. -/
lemma utf8Decode_encodeChar_append (c : Nat) (hc : isScalar c)
    (bs : List Nat) :
    utf8Decode (utf8EncodeChar c ++ bs) = (utf8Decode bs).map (c :: ·) := by
  obtain ⟨hlt, hsur⟩ := hc
  by_cases h1 : c < 128
  · simp only [utf8EncodeChar, if_pos h1, List.cons_append, List.nil_append]
    rw [utf8Decode.eq_def]
    simp only [if_pos h1]
  · by_cases h2 : c < 2048
    · have e0 : ¬ (192 + c / 64 < 128) := by omega
      have e1 : ¬ (192 + c / 64 < 194) := by omega
      have e2 : 192 + c / 64 < 224 := by omega
      have e3 : 128 ≤ 128 + c % 64 ∧ 128 + c % 64 < 192 := ⟨by omega, by omega⟩
      have ev : (192 + c / 64 - 192) * 64 + (128 + c % 64 - 128) = c := by
        omega
      simp only [utf8EncodeChar, if_neg h1, if_pos h2, List.cons_append,
        List.nil_append]
      rw [utf8Decode.eq_def]
      simp only [if_neg e0, if_neg e1, if_pos e2, if_pos e3, ev]
    · by_cases h3 : c < 65536
      · have e0 : ¬ (224 + c / 4096 < 128) := by omega
        have e1 : ¬ (224 + c / 4096 < 194) := by omega
        have e2 : ¬ (224 + c / 4096 < 224) := by omega
        have e2' : 224 + c / 4096 < 240 := by omega
        have e3 : 128 ≤ 128 + c / 64 % 64 ∧ 128 + c / 64 % 64 < 192 ∧
            128 ≤ 128 + c % 64 ∧ 128 + c % 64 < 192 :=
          ⟨by omega, by omega, by omega, by omega⟩
        have ev : (224 + c / 4096 - 224) * 4096 +
            (128 + c / 64 % 64 - 128) * 64 + (128 + c % 64 - 128) = c := by
          omega
        simp only [utf8EncodeChar, if_neg h1, if_neg h2, if_pos h3,
          List.cons_append, List.nil_append]
        rw [utf8Decode.eq_def]
        simp only [if_neg e0, if_neg e1, if_neg e2, if_pos e2', if_pos e3, ev]
        rw [if_pos ⟨by omega, hsur⟩]
      · have e0 : ¬ (240 + c / 262144 < 128) := by omega
        have e1 : ¬ (240 + c / 262144 < 194) := by omega
        have e2 : ¬ (240 + c / 262144 < 224) := by omega
        have e2' : ¬ (240 + c / 262144 < 240) := by omega
        have e2'' : 240 + c / 262144 < 245 := by omega
        have e3 : 128 ≤ 128 + c / 4096 % 64 ∧ 128 + c / 4096 % 64 < 192 ∧
            128 ≤ 128 + c / 64 % 64 ∧ 128 + c / 64 % 64 < 192 ∧
            128 ≤ 128 + c % 64 ∧ 128 + c % 64 < 192 :=
          ⟨by omega, by omega, by omega, by omega, by omega, by omega⟩
        have ev : (240 + c / 262144 - 240) * 262144 +
            (128 + c / 4096 % 64 - 128) * 4096 +
            (128 + c / 64 % 64 - 128) * 64 + (128 + c % 64 - 128) = c := by
          omega
        simp only [utf8EncodeChar, if_neg h1, if_neg h2, if_neg h3,
          List.cons_append, List.nil_append]
        rw [utf8Decode.eq_def]
        simp only [if_neg e0, if_neg e1, if_neg e2, if_neg e2', if_pos e2'',
          if_pos e3, ev]
        rw [if_pos ⟨by omega, hlt⟩]

/-- `utf8Decode` inverts `utf8Encode` on well-formed strings. -/
lemma utf8Decode_utf8Encode (s : PyStr) (h : ∀ c ∈ s, isScalar c) :
    utf8Decode (utf8Encode s) = some s := by
  induction s with
  | nil => rfl
  | cons c cs ih =>
    rw [utf8Encode, utf8Decode_encodeChar_append c (h c (by simp)),
      ih (fun x hx => h x (by simp [hx]))]
    rfl

/-- Dropping up to the first colon of `timestamp ++ ":" ++ inner` leaves the
colon and `inner`, when the timestamp is colon-free. -/
lemma dropWhile_timestamp (timestamp inner : PyStr)
    (h : ∀ c ∈ timestamp, c ≠ 58) :
    (timestamp ++ 58 :: inner).dropWhile (· ≠ 58) = 58 :: inner := by
  induction timestamp with
  | nil => simp [List.dropWhile]
  | cons a l ih =>
    have ha : a ≠ 58 := h a (by simp)
    rw [List.cons_append, List.dropWhile_cons, if_pos (by simp [ha])]
    exact ih (fun c hc => h c (by simp [hc]))

/-- C9: `deobfuscate_string` exactly inverts the documented three-layer
obfuscation — for every well-formed string `s` and colon-free ASCII
timestamp, decoding `base64(timestamp + ":" + base64(reverse(s)))` yields
`s`. -/
theorem deobfuscate_obfuscate_roundtrip (timestamp s : PyStr)
    (hts : ∀ c ∈ timestamp, c < 128 ∧ c ≠ 58)
    (hs : ∀ c ∈ s, isScalar c) :
    deobfuscate_string (obfuscate timestamp s) = some s := by
  have hsrev : ∀ c ∈ s.reverse, isScalar c :=
    fun c hc => hs c (List.mem_reverse.mp hc)
  have hrb : ∀ b ∈ utf8Encode s.reverse, b < 256 :=
    utf8Encode_lt256 _ (fun c hc => (hsrev c hc).1)
  have hinner : ∀ x ∈ b64encode (utf8Encode s.reverse), x < 128 ∧ x ≠ 58 :=
    b64encode_ascii _
  have houter : ∀ c ∈ timestamp ++ 58 :: b64encode (utf8Encode s.reverse),
      isScalar c := by
    intro c hc
    rcases List.mem_append.mp hc with hc | hc
    · obtain ⟨hlt, -⟩ := hts c hc
      exact ⟨by omega, by omega⟩
    · rcases List.mem_cons.mp hc with rfl | hc
      · exact ⟨by omega, by omega⟩
      · obtain ⟨hlt, -⟩ := hinner c hc
        exact ⟨by omega, by omega⟩
  have houterb : ∀ b ∈ utf8Encode
      (timestamp ++ 58 :: b64encode (utf8Encode s.reverse)), b < 256 :=
    utf8Encode_lt256 _ (fun c hc => (houter c hc).1)
  have hmem : 58 ∈ timestamp ++ 58 :: b64encode (utf8Encode s.reverse) := by
    simp
  unfold obfuscate deobfuscate_string
  rw [b64decode_b64encode _ houterb]
  simp only []
  rw [utf8Decode_utf8Encode _ houter]
  simp only [if_pos hmem]
  rw [dropWhile_timestamp _ _ (fun c hc => (hts c hc).2)]
  simp only [List.tail_cons]
  rw [b64decode_b64encode _ hrb]
  simp only []
  rw [utf8Decode_utf8Encode _ hsrev]
  simp [List.reverse_reverse]

/-- Witness for C9: the timestamp "12" and the payload "abc". -/
theorem deobfuscate_obfuscate_roundtrip_witness :
    (∀ c ∈ pyStrOf "12", c < 128 ∧ c ≠ 58) ∧
    (∀ c ∈ pyStrOf "abc", isScalar c) ∧
    deobfuscate_string (obfuscate (pyStrOf "12") (pyStrOf "abc"))
      = some (pyStrOf "abc") :=
  ⟨by decide, by decide,
   deobfuscate_obfuscate_roundtrip (pyStrOf "12") (pyStrOf "abc")
     (by decide) (by decide)⟩

end S3Renamer
